import Mathlib

/-!
Shallow embedding of the Midnight-Engine GPU vertex buffer manager
(`Source/Implementation/core/VertexBuffer.inl`) and proofs about its
resource-lifecycle and attribute-binding discipline.

The C++ code is a wrapper around an OpenGL-style context.  The ambient GPU
context (current array-buffer binding, current program, set of live buffer
names, per-program attribute tables, enabled/configured attribute slots) is
modelled as an explicit state record `GLContext`; every operation of the
manager is a function from context (and manager state) to context (and
manager state), with exceptions modelled by `Except`.  Machine integers are
modelled as `Int`/`Nat`: all values involved (buffer names, enum values,
sizes, strides) are small and no overflow occurs in the source paths
modelled here.

`dynamic_assert` comes from a header (`dynamic_assert.hpp`) that is not part
of the sources; following the specification, a failed `dynamic_assert`
signals the typed failure the spec calls `InvalidAttributeSpec` (used in the
attribute-registration checks as well as for the "should never happen"
internal assertions).
-/

namespace Midnight

/-! ### OpenGL enum constants (numeric values from the GL headers) -/

def GL_BYTE : Int := 5120
def GL_UNSIGNED_BYTE : Int := 5121
def GL_SHORT : Int := 5122
def GL_UNSIGNED_SHORT : Int := 5123
def GL_INT : Int := 5124
def GL_UNSIGNED_INT : Int := 5125
def GL_FLOAT : Int := 5126
def GL_DOUBLE : Int := 5130
def GL_HALF_FLOAT : Int := 5131
def GL_FIXED : Int := 5132
def GL_BGRA : Int := 32993
def GL_INT_2_10_10_10_REV : Int := 36255
def GL_UNSIGNED_INT_2_10_10_10_REV : Int := 33640
def GL_UNSIGNED_INT_10F_11F_11F_REV : Int := 35899

/-- Numeric value of the `GL_MAX_VERTEX_ATTRIBS` enum token.  The source
compares attribute locations against this token directly
(`dynamic_assert(location < GL_MAX_VERTEX_ATTRIBS, ...)`), i.e. against the
constant 0x8869 = 34921, not against the queried implementation limit. -/
def GL_MAX_VERTEX_ATTRIBS : Int := 34921

/-! ### Errors

The exception types thrown by the code.  Messages are not modelled; each
constructor stands for one C++ exception class.  `invalidAttributeSpec` is
the failure raised by a failed `dynamic_assert` (see the header comment). -/

inductive GLError where
  | resourceExhausted
  | bindException
  | attributeNotFound
  | invalidAttributeSpec
  deriving DecidableEq, Repr

/-! ### Attribute descriptors

The C++ code has an abstract base `detail::AttributePointerBase` with three
concrete subclasses (`AttributePointer`, `AttributeIPointer`,
`AttributeLPointer`), distinguished only by their accepted-type check and by
which `glVertexAttrib*Pointer` call `postBind` issues.  This closed hierarchy
is embedded as a record carrying a family tag. -/

inductive AttribFamily where
  | pointer
  | ipointer
  | lpointer
  deriving DecidableEq, Repr

structure AttribDescriptor where
  name : String
  size : Int
  type : Int
  stride : Int
  offset : Nat
  normalized : Bool
  family : AttribFamily
  deriving DecidableEq, Repr

/-- The check sequence of the `AttributePointerBase` constructor: error
conditions (2), (4), (5), (6), (7) and (8) of the source, in source order.
A failed check raises the registration failure; passing all of them yields
the constructed descriptor (family filled in by the subclass). -/
def mkAttributePointerBase (name : String) (size : Int) (type : Int)
    (stride : Int) (offset : Nat) (normalized : Bool) (family : AttribFamily) :
    Except GLError AttribDescriptor :=
  if ¬ ((0 < size ∧ size < 5) ∨ size = GL_BGRA) then
    .error .invalidAttributeSpec
  else if ¬ (0 ≤ stride) then
    .error .invalidAttributeSpec
  else if ¬ (size ≠ GL_BGRA ∨ type = GL_UNSIGNED_BYTE ∨
      type = GL_INT_2_10_10_10_REV ∨ type = GL_UNSIGNED_INT_2_10_10_10_REV) then
    .error .invalidAttributeSpec
  else if ¬ ((type ≠ GL_INT_2_10_10_10_REV ∧ type ≠ GL_UNSIGNED_INT_2_10_10_10_REV) ∨
      size = 4 ∨ size = GL_BGRA) then
    .error .invalidAttributeSpec
  else if ¬ (type ≠ GL_UNSIGNED_INT_10F_11F_11F_REV ∨ size = 3) then
    .error .invalidAttributeSpec
  else if ¬ (size ≠ GL_BGRA ∨ normalized = true) then
    .error .invalidAttributeSpec
  else
    .ok ⟨name, size, type, stride, offset, normalized, family⟩

/-- Error condition (3) check of `detail::AttributePointer`: the thirteen
accepted types of `glVertexAttribPointer`. -/
def pointerTypeAccepted (type : Int) : Prop :=
  type = GL_BYTE ∨ type = GL_UNSIGNED_BYTE ∨ type = GL_SHORT ∨
  type = GL_UNSIGNED_SHORT ∨ type = GL_INT ∨ type = GL_UNSIGNED_INT ∨
  type = GL_HALF_FLOAT ∨ type = GL_FLOAT ∨ type = GL_DOUBLE ∨
  type = GL_FIXED ∨ type = GL_INT_2_10_10_10_REV ∨
  type = GL_UNSIGNED_INT_2_10_10_10_REV ∨ type = GL_UNSIGNED_INT_10F_11F_11F_REV

instance (type : Int) : Decidable (pointerTypeAccepted type) := by
  unfold pointerTypeAccepted; infer_instance

/-- Error condition (3) check of `detail::AttributeIPointer`: the six
exact-integer types accepted by `glVertexAttribIPointer`. -/
def ipointerTypeAccepted (type : Int) : Prop :=
  type = GL_BYTE ∨ type = GL_UNSIGNED_BYTE ∨ type = GL_SHORT ∨
  type = GL_UNSIGNED_SHORT ∨ type = GL_INT ∨ type = GL_UNSIGNED_INT

instance (type : Int) : Decidable (ipointerTypeAccepted type) := by
  unfold ipointerTypeAccepted; infer_instance

/-- `detail::AttributePointer` constructor: base-class checks run first
(C++ base-constructor order), then the family's accepted-type check. -/
def mkAttributePointer (name : String) (size : Int) (type : Int)
    (normalized : Bool) (stride : Int) (offset : Nat) :
    Except GLError AttribDescriptor :=
  match mkAttributePointerBase name size type stride offset normalized .pointer with
  | .error e => .error e
  | .ok a =>
    if ¬ pointerTypeAccepted type then .error .invalidAttributeSpec else .ok a

/-- `detail::AttributeIPointer` constructor: the base is invoked with the
defaulted `normalized = GL_FALSE`. -/
def mkAttributeIPointer (name : String) (size : Int) (type : Int)
    (stride : Int) (offset : Nat) : Except GLError AttribDescriptor :=
  match mkAttributePointerBase name size type stride offset false .ipointer with
  | .error e => .error e
  | .ok a =>
    if ¬ ipointerTypeAccepted type then .error .invalidAttributeSpec else .ok a

/-- `detail::AttributeLPointer` constructor: the base is invoked with the
defaulted `normalized = GL_FALSE`; error condition (3) accepts only
`GL_DOUBLE`. -/
def mkAttributeLPointer (name : String) (size : Int) (type : Int)
    (stride : Int) (offset : Nat) : Except GLError AttribDescriptor :=
  match mkAttributePointerBase name size type stride offset false .lpointer with
  | .error e => .error e
  | .ok a =>
    if ¬ (type = GL_DOUBLE) then .error .invalidAttributeSpec else .ok a

/-! ### The GPU context

The ambient, externally-owned GL state the code reads and mutates.  Vertex
data of the template parameter `T` is modelled by an arbitrary element type
`α` (the code is parametric in `T`; only the sequence structure matters). -/

structure GLContext (α : Type) where
  /-- `GL_ARRAY_BUFFER_BINDING`: currently bound array buffer (0 = none). -/
  arrayBufferBinding : Nat
  /-- `GL_CURRENT_PROGRAM`: currently active shader program (0 = none). -/
  currentProgram : Nat
  /-- Names of live (generated, not yet deleted) buffer objects. -/
  allocated : List Nat
  /-- Next fresh name handed out by `glGenBuffers`. -/
  nextBufferName : Nat
  /-- GPU-side contents of each buffer, keyed by buffer name. -/
  contents : List (Nat × List α)
  /-- Per-program attribute tables: program ↦ (attribute name ↦ location),
  as consulted by `glGetAttribLocation`. -/
  attribTables : List (Nat × List (String × Nat))
  /-- Locations whose vertex attribute array is enabled. -/
  enabled : List Nat
  /-- Per-location attribute configuration installed by the
  `glVertexAttrib*Pointer` calls. -/
  configured : List (Nat × AttribDescriptor)
  deriving Repr

/-- Write `v` at key `k` in an association list (overwrite the first
occurrence, append if absent). -/
def setAssoc {β : Type} : List (Nat × β) → Nat → β → List (Nat × β)
  | [], k, v => [(k, v)]
  | (k', v') :: rest, k, v =>
    if k' = k then (k, v) :: rest else (k', v') :: setAssoc rest k v

/-- `glGenBuffers(1, &name)`: returns a fresh name and marks it live. -/
def glGenBuffer {α : Type} (c : GLContext α) : Nat × GLContext α :=
  (c.nextBufferName,
    { c with allocated := c.nextBufferName :: c.allocated,
             nextBufferName := c.nextBufferName + 1 })

/-- `glBindBuffer(GL_ARRAY_BUFFER, h)`. -/
def glBindBuffer {α : Type} (c : GLContext α) (h : Nat) : GLContext α :=
  { c with arrayBufferBinding := h }

/-- `glDeleteBuffers(1, &n)`: silently ignores 0 and names that are not
live; deleting the currently bound buffer reverts the binding to 0. -/
def glDeleteBuffer {α : Type} (c : GLContext α) (n : Nat) : GLContext α :=
  if n = 0 ∨ n ∉ c.allocated then c
  else
    { c with allocated := c.allocated.erase n,
             arrayBufferBinding :=
               if c.arrayBufferBinding = n then 0 else c.arrayBufferBinding }

/-- `glBufferData(GL_ARRAY_BUFFER, ..., data, Usage)`: on success writes the
data into the currently bound buffer; when the driver reports out of memory
(the environment oracle `oom`) the store is left unchanged and the error
flag — consumed immediately by the code's `glGetError()` check — is set. -/
def glBufferData {α : Type} (c : GLContext α) (vertexData : List α)
    (oom : Bool) : GLContext α :=
  if oom then c
  else { c with contents := setAssoc c.contents c.arrayBufferBinding vertexData }

/-- `glEnableVertexAttribArray(loc)`. -/
def glEnableVertexAttribArray {α : Type} (c : GLContext α) (loc : Nat) :
    GLContext α :=
  { c with enabled := if loc ∈ c.enabled then c.enabled else loc :: c.enabled }

/-- Attribute lookup in a program's table, as performed by
`glGetAttribLocation` (`none` models the -1 return). -/
def lookupAttrib {α : Type} (c : GLContext α) (program : Nat) (name : String) :
    Option Nat :=
  (c.attribTables.lookup program).bind (fun table => table.lookup name)

/-- `detail::getAttribLocation`: asserts a non-zero program handle, then
fails with `AttributeNotFoundException` when the lookup returns -1. -/
def getAttribLocation {α : Type} (c : GLContext α) (handle : Nat)
    (name : String) : Except GLError Nat :=
  if handle = 0 then .error .invalidAttributeSpec
  else
    match lookupAttrib c handle name with
    | some loc => .ok loc
    | none => .error .attributeNotFound

/-! ### The vertex buffer manager -/

/-- The mutable state of a `VertexBufferImpl<T, PolyType, Usage>` object:
the GPU handle, the CPU-side mirror of the vertex data, and the ordered
descriptor list.  (`PolyType` and `Usage` are compile-time template
arguments checked by `static_assert` and do not affect the lifecycle paths
modelled here.) -/
structure VertexBufferImpl (α : Type) where
  handle : Nat
  data : List α
  attributes : List AttribDescriptor
  deriving Repr

/-- The constructor `VertexBufferImpl(const std::vector<T>&)` (the
rvalue overload at lines 418-431 performs the identical call sequence):
generate a buffer, scope-bind it via `VertexBufferBindHelper` (saving the
previous binding), upload, and check `glGetError()` for `GL_OUT_OF_MEMORY`.
On out-of-memory the constructor throws `ResourceException`; stack
unwinding runs the helper's destructor (restoring the saved binding) but —
the object never having been fully constructed — not `~VertexBufferImpl`,
and no `glDeleteBuffers` call appears before the `throw`. -/
def constructVertexBuffer {α : Type} (c : GLContext α) (vertexData : List α)
    (oom : Bool) : Except GLError (VertexBufferImpl α) × GLContext α :=
  let gen := glGenBuffer c
  let handle := gen.1
  let preserved := gen.2.arrayBufferBinding
  let c2 := glBindBuffer gen.2 handle
  let c3 := glBufferData c2 vertexData oom
  if oom then
    (.error .resourceExhausted, glBindBuffer c3 preserved)
  else
    (.ok ⟨handle, vertexData, []⟩, glBindBuffer c3 preserved)

/-- `VertexBufferImpl::rebuffer`: generate a new buffer, scope-bind it,
upload; on out-of-memory delete the new buffer and throw (the helper's
destructor restores the saved binding during unwinding); on success install
the new data and handle and delete the old handle (the helper's destructor
restores the saved binding at scope exit). -/
def rebuffer {α : Type} (c : GLContext α) (vb : VertexBufferImpl α)
    (vertexData : List α) (oom : Bool) :
    Except GLError Unit × VertexBufferImpl α × GLContext α :=
  let gen := glGenBuffer c
  let newHandle := gen.1
  let preserved := gen.2.arrayBufferBinding
  let c2 := glBindBuffer gen.2 newHandle
  let c3 := glBufferData c2 vertexData oom
  if oom then
    let c4 := glDeleteBuffer c3 newHandle
    (.error .resourceExhausted, vb, glBindBuffer c4 preserved)
  else
    let vb2 : VertexBufferImpl α := { vb with data := vertexData }
    let c4 := glDeleteBuffer c3 vb.handle
    let vb3 : VertexBufferImpl α := { vb2 with handle := newHandle }
    (.ok (), vb3, glBindBuffer c4 preserved)

/-- `VertexBufferImpl::setVertexData` (both overloads perform the identical
sequence): query `GL_ARRAY_BUFFER_BINDING`; if this buffer is the currently
bound one, throw `BindException`; otherwise rebuffer. -/
def setVertexData {α : Type} (c : GLContext α) (vb : VertexBufferImpl α)
    (vertexData : List α) (oom : Bool) :
    Except GLError Unit × VertexBufferImpl α × GLContext α :=
  if vb.handle = c.arrayBufferBinding then
    (.error .bindException, vb, c)
  else
    rebuffer c vb vertexData oom

/-- `VertexBufferImpl::addAttributePointer`: construct the descriptor (its
constructor validates and may throw, in which case the list is untouched)
and append it. -/
def addAttributePointer {α : Type} (vb : VertexBufferImpl α) (name : String)
    (size : Int) (type : Int) (normalized : Bool) (stride : Int)
    (offset : Nat) : Except GLError Unit × VertexBufferImpl α :=
  match mkAttributePointer name size type normalized stride offset with
  | .error e => (.error e, vb)
  | .ok a => (.ok (), { vb with attributes := vb.attributes ++ [a] })

/-- `VertexBufferImpl::addAttributeIPointer`. -/
def addAttributeIPointer {α : Type} (vb : VertexBufferImpl α) (name : String)
    (size : Int) (type : Int) (stride : Int) (offset : Nat) :
    Except GLError Unit × VertexBufferImpl α :=
  match mkAttributeIPointer name size type stride offset with
  | .error e => (.error e, vb)
  | .ok a => (.ok (), { vb with attributes := vb.attributes ++ [a] })

/-- `VertexBufferImpl::addAttributeLPointer`: always passes `GL_DOUBLE` as
the type. -/
def addAttributeLPointer {α : Type} (vb : VertexBufferImpl α) (name : String)
    (size : Int) (stride : Int) (offset : Nat) :
    Except GLError Unit × VertexBufferImpl α :=
  match mkAttributeLPointer name size GL_DOUBLE stride offset with
  | .error e => (.error e, vb)
  | .ok a => (.ok (), { vb with attributes := vb.attributes ++ [a] })

/-- One `AttributePointerBase::bind` step after the location has been
resolved and the internal assertion has passed: enable the array and issue
the family's `glVertexAttrib*Pointer` call (recorded as the per-location
configuration). -/
def applyAttrib {α : Type} (c : GLContext α) (loc : Nat)
    (a : AttribDescriptor) : GLContext α :=
  let c1 := glEnableVertexAttribArray c loc
  { c1 with configured := setAssoc c1.configured loc a }

/-- The attribute loop of `VertexBufferImpl::bind`: for each descriptor in
order, resolve its name in the current program (`AttributePointerBase::bind`
calling `detail::getAttribLocation`), assert
`location < GL_MAX_VERTEX_ATTRIBS`, then enable and configure it.  An
exception aborts the loop. -/
def bindAttribs {α : Type} (program : Nat) :
    GLContext α → List AttribDescriptor → Except GLError Unit × GLContext α
  | c, [] => (.ok (), c)
  | c, a :: rest =>
    match getAttribLocation c program a.name with
    | .error e => (.error e, c)
    | .ok loc =>
      if ¬ ((loc : Int) < GL_MAX_VERTEX_ATTRIBS) then
        (.error .invalidAttributeSpec, c)
      else bindAttribs program (applyAttrib c loc a) rest

/-- `VertexBufferImpl::bind`: query `GL_CURRENT_PROGRAM`; with no program
bound throw `BindException` (before any GPU mutation); otherwise bind this
buffer and apply each registered attribute. -/
def bindVertexBuffer {α : Type} (c : GLContext α) (vb : VertexBufferImpl α) :
    Except GLError Unit × GLContext α :=
  if c.currentProgram = 0 then (.error .bindException, c)
  else bindAttribs c.currentProgram (glBindBuffer c vb.handle) vb.attributes

/-- `VertexBufferImpl::resetAttributes`: clears the descriptor list; takes
no context, i.e. touches no GPU state. -/
def resetAttributes {α : Type} (vb : VertexBufferImpl α) :
    VertexBufferImpl α :=
  { vb with attributes := [] }

/-- The move constructor `VertexBufferImpl(VertexBufferImpl&&)`: the new
object takes the handle, the data and the descriptor list; the moved-from
object's handle is set to 0 (its moved-from containers are left empty, the
behaviour of the standard-library move constructors used). Returns
(new object, moved-from object). -/
def moveConstruct {α : Type} (vb : VertexBufferImpl α) :
    VertexBufferImpl α × VertexBufferImpl α :=
  (⟨vb.handle, vb.data, vb.attributes⟩, ⟨0, [], []⟩)

/-- `~VertexBufferImpl`: deletes the handle unconditionally
(`glDeleteBuffers` itself silently ignores the name 0). -/
def destroyVertexBuffer {α : Type} (c : GLContext α)
    (vb : VertexBufferImpl α) : GLContext α :=
  glDeleteBuffer c vb.handle

/-- Well-formedness of a GL context as the driver guarantees it: live
buffer names are unique, non-zero, and below the fresh-name counter, and
the counter never hands out 0. -/
def GLContext.wf {α : Type} (c : GLContext α) : Prop :=
  c.allocated.Nodup ∧ (∀ n ∈ c.allocated, 0 < n ∧ n < c.nextBufferName) ∧
    0 < c.nextBufferName

/-! ### Sample states used by the concrete witnesses -/

/-- A fresh GL context with no live buffers and no current program. -/
def ctxEmpty : GLContext Nat :=
  { arrayBufferBinding := 0, currentProgram := 0, allocated := [],
    nextBufferName := 1, contents := [], attribTables := [], enabled := [],
    configured := [] }

/-- A context owning one live buffer (name 1) holding `[5, 6, 7]`. -/
def ctxOne : GLContext Nat :=
  { arrayBufferBinding := 0, currentProgram := 0, allocated := [1],
    nextBufferName := 2, contents := [(1, [5, 6, 7])], attribTables := [],
    enabled := [], configured := [] }

/-- A manager owning buffer 1 with CPU mirror `[5, 6, 7]` and no
descriptors. -/
def vbOne : VertexBufferImpl Nat := { handle := 1, data := [5, 6, 7], attributes := [] }

/-- A manager owning buffer 1 with two float-family descriptors. -/
def vbTwoAttrs : VertexBufferImpl Nat :=
  { handle := 1, data := [5, 6, 7],
    attributes := [⟨"pos", 3, GL_FLOAT, 0, 0, false, .pointer⟩,
                   ⟨"nrm", 3, GL_FLOAT, 0, 12, false, .pointer⟩] }

/-- `ctxOne` with program 7 current, whose attribute table knows only
`"pos"` (at location 0). -/
def ctxProgPosOnly : GLContext Nat :=
  { ctxOne with currentProgram := 7, attribTables := [(7, [("pos", 0)])] }

/-! ### The registration rule set, in two formulations

`baseChecksProp` restates, as one proposition, exactly the conditions of
the `dynamic_assert` chain in the `AttributePointerBase` constructor.
`claimedRulesPointer` is the rule set as the specification enumerates it
(§4.1/§8), written from the spec's words for the refinement comparison:
note it contains no accepted-type list for the floating-point family. -/

def baseChecksProp (size type stride : Int) (normalized : Bool) : Prop :=
  ((0 < size ∧ size < 5) ∨ size = GL_BGRA) ∧
  (0 ≤ stride) ∧
  (size ≠ GL_BGRA ∨ type = GL_UNSIGNED_BYTE ∨
    type = GL_INT_2_10_10_10_REV ∨ type = GL_UNSIGNED_INT_2_10_10_10_REV) ∧
  ((type ≠ GL_INT_2_10_10_10_REV ∧ type ≠ GL_UNSIGNED_INT_2_10_10_10_REV) ∨
    size = 4 ∨ size = GL_BGRA) ∧
  (type ≠ GL_UNSIGNED_INT_10F_11F_11F_REV ∨ size = 3) ∧
  (size ≠ GL_BGRA ∨ normalized = true)

/-- The specification's §4.1 rule set as the claim enumerates it, applied
to the floating-point family's arguments: component count 1, 2, 3, 4 or
`GL_BGRA`; non-negative stride; `GL_BGRA` requires one of the three listed
types and `normalized = true`; the two packed 2-10-10-10 types require
size 4 or `GL_BGRA`; the packed 10F-11F-11F type requires size exactly 3.
(Written from the specification's words, for comparison with the source's
check chain.) -/
def claimedRulesPointer (size type stride : Int) (normalized : Bool) : Prop :=
  (size = 1 ∨ size = 2 ∨ size = 3 ∨ size = 4 ∨ size = GL_BGRA) ∧
  (0 ≤ stride) ∧
  (size = GL_BGRA →
    (type = GL_UNSIGNED_BYTE ∨ type = GL_INT_2_10_10_10_REV ∨
      type = GL_UNSIGNED_INT_2_10_10_10_REV) ∧ normalized = true) ∧
  ((type = GL_INT_2_10_10_10_REV ∨ type = GL_UNSIGNED_INT_2_10_10_10_REV) →
    (size = 4 ∨ size = GL_BGRA)) ∧
  (type = GL_UNSIGNED_INT_10F_11F_11F_REV → size = 3)

instance (size type stride : Int) (normalized : Bool) :
    Decidable (claimedRulesPointer size type stride normalized) := by
  unfold claimedRulesPointer; infer_instance

/-- The claim's rule set for the integer variant: the shared rules (with
the defaulted `normalized = false`) plus "only the six exact-integer
types". -/
def claimedRulesIPointer (size type stride : Int) : Prop :=
  claimedRulesPointer size type stride false ∧ ipointerTypeAccepted type

instance (size type stride : Int) :
    Decidable (claimedRulesIPointer size type stride) := by
  unfold claimedRulesIPointer; infer_instance

/-- The claim's rule set for the double variant: the shared rules at the
fixed type `GL_DOUBLE` (which the registration call always passes) with
the defaulted `normalized = false`. -/
def claimedRulesLPointer (size stride : Int) : Prop :=
  claimedRulesPointer size GL_DOUBLE stride false

instance (size stride : Int) : Decidable (claimedRulesLPointer size stride) := by
  unfold claimedRulesLPointer; infer_instance

/-! ## Theorems -/

/-- C1 (code defect): for every context and every initial vertex sequence,
when the GPU reports out-of-memory on the construction upload, construction
fails with `ResourceExhausted` — but the freshly generated buffer handle is
NOT released before the error propagates: it remains in the live-buffer
set, and the context's allocation count grows by one.  (The constructor
throws without a `glDeleteBuffers` call, and a throwing constructor's
destructor never runs; contrast `rebuffer`, which deletes its new handle
before throwing.)  This contradicts the claim and the spec, which say the
partially-created handle is released and no handle remains allocated. -/
theorem constructVertexBuffer_oom_leaks_handle {α : Type} (c : GLContext α)
    (vertexData : List α) :
    (constructVertexBuffer c vertexData true).1 = .error .resourceExhausted ∧
    (constructVertexBuffer c vertexData true).2.allocated
        = c.nextBufferName :: c.allocated ∧
    (constructVertexBuffer c vertexData true).2.allocated.length
        = c.allocated.length + 1 := by
  refine ⟨?_, ?_, ?_⟩ <;>
    simp [constructVertexBuffer, glGenBuffer, glBindBuffer, glBufferData]

/-- C2: for every manager, input sequence and out-of-memory oracle, calling
`setVertexData` while the manager's buffer is the currently bound array
buffer fails with `BindException` (the exception class the code throws; the
spec's §4.1 calls this failure `InvalidOperation`), and both the manager's
state (CPU data and GPU handle) and the GL context are left completely
unchanged. -/
theorem setVertexData_whileBound_fails {α : Type} (c : GLContext α)
    (vb : VertexBufferImpl α) (vertexData : List α) (oom : Bool)
    (h : vb.handle = c.arrayBufferBinding) :
    setVertexData c vb vertexData oom = (.error .bindException, vb, c) := by
  simp [setVertexData, h]

/-- Witness for C2 at a concrete bound buffer. -/
theorem setVertexData_whileBound_fails_witness :
    setVertexData { ctxOne with arrayBufferBinding := 1 } vbOne [9] false
      = (.error .bindException, vbOne, { ctxOne with arrayBufferBinding := 1 }) :=
  setVertexData_whileBound_fails { ctxOne with arrayBufferBinding := 1 }
    vbOne [9] false rfl

/-- C7: construction and `setVertexData` perform a scoped save/restore of
the ambient `GL_ARRAY_BUFFER` binding (via `detail::VertexBufferBindHelper`):
on every exit path — success, the bound-buffer precondition failure, and
the out-of-memory failure (where the helper's destructor runs during stack
unwinding) — the binding current on entry is current again on exit. -/
theorem ambientBinding_restored_on_every_path {α : Type} (c : GLContext α)
    (vb : VertexBufferImpl α) (vertexData : List α) (oom : Bool) :
    (constructVertexBuffer c vertexData oom).2.arrayBufferBinding
        = c.arrayBufferBinding ∧
    (setVertexData c vb vertexData oom).2.2.arrayBufferBinding
        = c.arrayBufferBinding := by
  constructor
  · cases oom <;>
      simp [constructVertexBuffer, glGenBuffer, glBindBuffer, glBufferData]
  · by_cases hb : vb.handle = c.arrayBufferBinding
    · simp [setVertexData, hb]
    · cases oom <;>
        simp [setVertexData, hb, rebuffer, glGenBuffer, glBindBuffer,
          glBufferData, glDeleteBuffer]

/-- C8: `resetAttributes` empties the descriptor list (it is a pure
operation on the manager, touching no GPU state), and a subsequent `bind`
with a program current succeeds having enabled zero attribute slots and
configured no attributes: the resulting context differs from the entry
context only in the array-buffer binding. -/
theorem resetAttributes_then_bind_enables_nothing {α : Type}
    (c : GLContext α) (vb : VertexBufferImpl α)
    (h : c.currentProgram ≠ 0) :
    (resetAttributes vb).attributes = [] ∧
    bindVertexBuffer c (resetAttributes vb)
      = (.ok (), { c with arrayBufferBinding := vb.handle }) := by
  refine ⟨rfl, ?_⟩
  simp [bindVertexBuffer, resetAttributes, h, bindAttribs, glBindBuffer]

/-- Witness for C8 at a concrete program-bound context. -/
theorem resetAttributes_then_bind_enables_nothing_witness :
    (resetAttributes vbTwoAttrs).attributes = [] ∧
    bindVertexBuffer ctxProgPosOnly (resetAttributes vbTwoAttrs)
      = (.ok (), { ctxProgPosOnly with arrayBufferBinding := vbTwoAttrs.handle }) :=
  resetAttributes_then_bind_enables_nothing ctxProgPosOnly vbTwoAttrs (by decide)

/-- C9: when `bind` fails because no shader program is current, the GL
context is returned exactly as it was: the check precedes the
`glBindBuffer` call and the attribute loop, so neither the ambient binding
nor any attribute-enable state changes. -/
theorem bind_noProgram_leaves_state_unchanged {α : Type} (c : GLContext α)
    (vb : VertexBufferImpl α) (h : c.currentProgram = 0) :
    bindVertexBuffer c vb = (.error .bindException, c) := by
  simp [bindVertexBuffer, h]

/-- Witness for C9 at a concrete context with no current program. -/
theorem bind_noProgram_leaves_state_unchanged_witness :
    bindVertexBuffer ctxOne vbTwoAttrs = (.error .bindException, ctxOne) :=
  bind_noProgram_leaves_state_unchanged ctxOne vbTwoAttrs rfl

/-- C10: move construction transfers the GPU handle, the CPU-side data and
the descriptor list to the new object and zeroes the moved-from object's
handle; destroying the moved-from object is then a no-op on the context
(`glDeleteBuffers` ignores the name 0), so it does not release the
transferred buffer, and (for a non-zero handle) the moved-from object no
longer holds the transferred handle — ownership is unique. -/
theorem moveConstruct_transfers_ownership {α : Type}
    (vb : VertexBufferImpl α) :
    (moveConstruct vb).1.handle = vb.handle ∧
    (moveConstruct vb).1.data = vb.data ∧
    (moveConstruct vb).1.attributes = vb.attributes ∧
    (moveConstruct vb).2.handle = 0 ∧
    (∀ c : GLContext α, destroyVertexBuffer c (moveConstruct vb).2 = c) ∧
    (vb.handle ≠ 0 →
      (moveConstruct vb).2.handle ≠ (moveConstruct vb).1.handle) := by
  refine ⟨rfl, rfl, rfl, rfl, fun c => ?_, fun h => ?_⟩
  · simp [destroyVertexBuffer, moveConstruct, glDeleteBuffer]
  · simpa [moveConstruct] using Ne.symm h

/-- Witness for C10 at a concrete manager and context. -/
theorem moveConstruct_transfers_ownership_witness :
    destroyVertexBuffer ctxOne (moveConstruct vbTwoAttrs).2 = ctxOne ∧
    (moveConstruct vbTwoAttrs).2.handle ≠ (moveConstruct vbTwoAttrs).1.handle :=
  ⟨(moveConstruct_transfers_ownership vbTwoAttrs).2.2.2.2.1 ctxOne,
   (moveConstruct_transfers_ownership vbTwoAttrs).2.2.2.2.2 (by decide)⟩

/-- C3: for a manager that is not currently bound, an out-of-memory
failure during the upload step of `setVertexData` releases the newly
allocated GPU handle (`rebuffer` deletes it before throwing),
`ResourceExhausted` propagates, and the manager's original GPU handle and
CPU-side data are completely intact: the manager is returned unchanged and
the context is unchanged except for the consumed fresh buffer name (the
live-buffer set, contents, binding and program are exactly as on entry). -/
theorem setVertexData_oom_leaves_original_intact {α : Type}
    (c : GLContext α) (vb : VertexBufferImpl α) (vertexData : List α)
    (hb : vb.handle ≠ c.arrayBufferBinding) (hn : 0 < c.nextBufferName) :
    setVertexData c vb vertexData true =
      (.error .resourceExhausted, vb,
        { c with nextBufferName := c.nextBufferName + 1 }) := by
  have hnz : c.nextBufferName ≠ 0 := Nat.pos_iff_ne_zero.mp hn
  simp [setVertexData, hb, rebuffer, glGenBuffer, glBindBuffer, glBufferData,
    glDeleteBuffer, hnz]

/-- Witness for C3 at a concrete unbound manager. -/
theorem setVertexData_oom_leaves_original_intact_witness :
    setVertexData ctxOne vbOne [9] true =
      (.error .resourceExhausted, vbOne, { ctxOne with nextBufferName := 3 }) :=
  setVertexData_oom_leaves_original_intact ctxOne vbOne [9]
    (by decide) (by decide)

/-- C4: for a manager that is not currently bound, in a well-formed
context in which the manager's buffer is live, a successful
`setVertexData` leaves the CPU mirror exactly equal to the new input
sequence, installs as the manager's handle a brand-new GPU name (one that
was not live on entry), uploads the new data into it, and releases the old
handle: the old name is no longer in the live-buffer set on exit. -/
theorem setVertexData_success_swaps_handle {α : Type} (c : GLContext α)
    (vb : VertexBufferImpl α) (vertexData : List α)
    (hb : vb.handle ≠ c.arrayBufferBinding) (hwf : c.wf)
    (hmem : vb.handle ∈ c.allocated) :
    setVertexData c vb vertexData false =
      (.ok (), ⟨c.nextBufferName, vertexData, vb.attributes⟩,
        { c with
            allocated := c.nextBufferName :: c.allocated.erase vb.handle,
            nextBufferName := c.nextBufferName + 1,
            contents := setAssoc c.contents c.nextBufferName vertexData }) ∧
    c.nextBufferName ∉ c.allocated ∧
    vb.handle ∉ (setVertexData c vb vertexData false).2.2.allocated := by
  obtain ⟨hnd, hbound, hpos⟩ := hwf
  have hvlt : vb.handle < c.nextBufferName := (hbound vb.handle hmem).2
  have hvnz : vb.handle ≠ 0 :=
    Nat.pos_iff_ne_zero.mp (hbound vb.handle hmem).1
  have hne : vb.handle ≠ c.nextBufferName := Nat.ne_of_lt hvlt
  have hNnot : c.nextBufferName ∉ c.allocated := by
    intro hmemN; exact absurd (hbound _ hmemN).2 (lt_irrefl _)
  have herase : (c.nextBufferName :: c.allocated).erase vb.handle
      = c.nextBufferName :: c.allocated.erase vb.handle := by
    rw [List.erase_cons_tail]; simp [Ne.symm hne]
  have h1 : setVertexData c vb vertexData false =
      (.ok (), ⟨c.nextBufferName, vertexData, vb.attributes⟩,
        { c with
            allocated := c.nextBufferName :: c.allocated.erase vb.handle,
            nextBufferName := c.nextBufferName + 1,
            contents := setAssoc c.contents c.nextBufferName vertexData }) := by
    simp [setVertexData, hb, rebuffer, glGenBuffer, glBindBuffer,
      glBufferData, glDeleteBuffer, herase, hvnz, hmem, Ne.symm hne]
  refine ⟨h1, hNnot, ?_⟩
  rw [h1]
  simp [List.mem_cons, hne, hnd.mem_erase_iff]

/-- Witness for C4 at a concrete unbound manager in a well-formed
context. -/
theorem setVertexData_success_swaps_handle_witness :
    setVertexData ctxOne vbOne [9] false =
      (.ok (), ⟨2, [9], []⟩,
        { ctxOne with allocated := [2], nextBufferName := 3,
                      contents := [(1, [5, 6, 7]), (2, [9])] }) ∧
    (2 : Nat) ∉ ctxOne.allocated ∧
    vbOne.handle ∉ (setVertexData ctxOne vbOne [9] false).2.2.allocated := by
  have h := setVertexData_success_swaps_handle ctxOne vbOne [9]
    (by decide) ⟨by decide, by decide, by decide⟩ (by decide)
  exact ⟨by rw [h.1]; rfl, h.2.1, h.2.2⟩

/-- Passing all the base-constructor checks yields the descriptor. -/
theorem mkAttributePointerBase_ok {name : String} {size type stride : Int}
    {offset : Nat} {normalized : Bool} {fam : AttribFamily}
    (h : baseChecksProp size type stride normalized) :
    mkAttributePointerBase name size type stride offset normalized fam
      = .ok ⟨name, size, type, stride, offset, normalized, fam⟩ := by
  obtain ⟨h1, h2, h3, h4, h5, h6⟩ := h
  simp [mkAttributePointerBase, h1, h2, h3, h4, h5, h6]

/-- Violating any base-constructor check raises the registration
failure. -/
theorem mkAttributePointerBase_err {name : String} {size type stride : Int}
    {offset : Nat} {normalized : Bool} {fam : AttribFamily}
    (h : ¬ baseChecksProp size type stride normalized) :
    mkAttributePointerBase name size type stride offset normalized fam
      = .error .invalidAttributeSpec := by
  unfold baseChecksProp at h
  unfold mkAttributePointerBase
  split_ifs with h1 h2 h3 h4 h5 h6
  · exact absurd ⟨h1, h2, h3, h4, h5, h6⟩ h
  all_goals rfl

/-- `AttributePointer` construction succeeds given the base checks and the
family's accepted-type check. -/
theorem mkAttributePointer_ok {name : String} {size type stride : Int}
    {offset : Nat} {normalized : Bool}
    (h : baseChecksProp size type stride normalized)
    (ht : pointerTypeAccepted type) :
    mkAttributePointer name size type normalized stride offset
      = .ok ⟨name, size, type, stride, offset, normalized, .pointer⟩ := by
  simp [mkAttributePointer, mkAttributePointerBase_ok h, ht]

/-- `AttributePointer` construction fails when either check fails. -/
theorem mkAttributePointer_err {name : String} {size type stride : Int}
    {offset : Nat} {normalized : Bool}
    (h : ¬ (baseChecksProp size type stride normalized ∧
      pointerTypeAccepted type)) :
    mkAttributePointer name size type normalized stride offset
      = .error .invalidAttributeSpec := by
  by_cases hb : baseChecksProp size type stride normalized
  · have ht : ¬ pointerTypeAccepted type := fun ht => h ⟨hb, ht⟩
    simp [mkAttributePointer, mkAttributePointerBase_ok hb, ht]
  · simp [mkAttributePointer, mkAttributePointerBase_err hb]

/-- `AttributeIPointer` construction succeeds given the base checks (at the
defaulted `normalized = false`) and the integer accepted-type check. -/
theorem mkAttributeIPointer_ok {name : String} {size type stride : Int}
    {offset : Nat} (h : baseChecksProp size type stride false)
    (ht : ipointerTypeAccepted type) :
    mkAttributeIPointer name size type stride offset
      = .ok ⟨name, size, type, stride, offset, false, .ipointer⟩ := by
  simp [mkAttributeIPointer, mkAttributePointerBase_ok h, ht]

/-- `AttributeIPointer` construction fails when either check fails. -/
theorem mkAttributeIPointer_err {name : String} {size type stride : Int}
    {offset : Nat}
    (h : ¬ (baseChecksProp size type stride false ∧
      ipointerTypeAccepted type)) :
    mkAttributeIPointer name size type stride offset
      = .error .invalidAttributeSpec := by
  by_cases hb : baseChecksProp size type stride false
  · have ht : ¬ ipointerTypeAccepted type := fun ht => h ⟨hb, ht⟩
    simp [mkAttributeIPointer, mkAttributePointerBase_ok hb, ht]
  · simp [mkAttributeIPointer, mkAttributePointerBase_err hb]

/-- `AttributeLPointer` construction at the fixed type `GL_DOUBLE`
succeeds given the base checks (its own accepted-type check is then
trivially satisfied). -/
theorem mkAttributeLPointer_ok {name : String} {size stride : Int}
    {offset : Nat} (h : baseChecksProp size GL_DOUBLE stride false) :
    mkAttributeLPointer name size GL_DOUBLE stride offset
      = .ok ⟨name, size, GL_DOUBLE, stride, offset, false, .lpointer⟩ := by
  simp [mkAttributeLPointer, mkAttributePointerBase_ok h]

/-- `AttributeLPointer` construction at `GL_DOUBLE` fails when the base
checks fail. -/
theorem mkAttributeLPointer_err {name : String} {size stride : Int}
    {offset : Nat} (h : ¬ baseChecksProp size GL_DOUBLE stride false) :
    mkAttributeLPointer name size GL_DOUBLE stride offset
      = .error .invalidAttributeSpec := by
  simp [mkAttributeLPointer, mkAttributePointerBase_err h]

/-- The source's base-constructor check chain is equivalent to the
specification's enumerated shared rule set: the interval formulation of
the size check matches the spec's enumeration, and the source's
disjunctive `GL_BGRA` conditions match the spec's bundled implication. -/
theorem baseChecksProp_iff_claimed (size type stride : Int)
    (normalized : Bool) :
    baseChecksProp size type stride normalized ↔
      claimedRulesPointer size type stride normalized := by
  unfold baseChecksProp claimedRulesPointer
  have hs : ((0 < size ∧ size < 5) ∨ size = GL_BGRA) ↔
      (size = 1 ∨ size = 2 ∨ size = 3 ∨ size = 4 ∨ size = GL_BGRA) := by
    unfold GL_BGRA
    constructor
    · rintro (⟨ha, hb⟩ | h) <;> omega
    · rintro (h | h | h | h | h) <;> omega
  rw [hs]
  constructor
  · rintro ⟨s, t, a3, a4, a5, a6⟩
    refine ⟨s, t, fun hB => ⟨?_, ?_⟩, fun hT => ?_, fun hF => ?_⟩
    · rcases a3 with h | h
      · exact absurd hB h
      · exact h
    · rcases a6 with h | h
      · exact absurd hB h
      · exact h
    · rcases a4 with ⟨h2, h3⟩ | h
      · rcases hT with hT | hT
        · exact absurd hT h2
        · exact absurd hT h3
      · exact h
    · rcases a5 with h | h
      · exact absurd hF h
      · exact h
  · rintro ⟨s, t, hB, hT, hF⟩
    refine ⟨s, t, ?_, ?_, ?_, ?_⟩
    · by_cases hb : size = GL_BGRA
      · exact Or.inr (hB hb).1
      · exact Or.inl hb
    · by_cases h2 : type = GL_INT_2_10_10_10_REV
      · exact Or.inr (hT (Or.inl h2))
      · by_cases h3 : type = GL_UNSIGNED_INT_2_10_10_10_REV
        · exact Or.inr (hT (Or.inr h3))
        · exact Or.inl ⟨h2, h3⟩
    · by_cases hf : type = GL_UNSIGNED_INT_10F_11F_11F_REV
      · exact Or.inr (hF hf)
      · exact Or.inl hf
    · by_cases hb : size = GL_BGRA
      · exact Or.inr (hB hb).2
      · exact Or.inl hb

/-- Counterexample to C5 as stated: with component count 3, type 1 (an
enum value that is not among the thirteen accepted by
`glVertexAttribPointer`), stride 0 and `normalized = false`, every rule the
claim enumerates for the floating-point family is satisfied, yet
registration fails with `InvalidAttributeSpec` and appends nothing — the
claim's rule list omits the float family's accepted-type check (error
condition (3)). -/
theorem addAttributePointer_claim_counterexample :
    claimedRulesPointer 3 1 0 false ∧
    addAttributePointer (⟨1, ([] : List Nat), []⟩ : VertexBufferImpl Nat)
        "a" 3 1 false 0 0
      = (.error .invalidAttributeSpec, ⟨1, [], []⟩) := by
  constructor
  · decide
  · rfl

/-- C5 (amended): registration through each of the three families succeeds
exactly when the arguments satisfy the claim's §4.1 rule set for that
family, amended so that the floating-point family additionally requires
its type to be one of the thirteen values `glVertexAttribPointer` accepts;
success appends exactly the one new descriptor, and every violating
combination fails with `InvalidAttributeSpec` and appends no descriptor. -/
theorem addAttribute_success_iff_rules {α : Type} (vb : VertexBufferImpl α)
    (name : String) (size type stride : Int) (offset : Nat)
    (normalized : Bool) :
    (claimedRulesPointer size type stride normalized ∧
        pointerTypeAccepted type →
      addAttributePointer vb name size type normalized stride offset
        = (.ok (), { vb with attributes := vb.attributes ++
            [⟨name, size, type, stride, offset, normalized, .pointer⟩] })) ∧
    (¬ (claimedRulesPointer size type stride normalized ∧
        pointerTypeAccepted type) →
      addAttributePointer vb name size type normalized stride offset
        = (.error .invalidAttributeSpec, vb)) ∧
    (claimedRulesIPointer size type stride →
      addAttributeIPointer vb name size type stride offset
        = (.ok (), { vb with attributes := vb.attributes ++
            [⟨name, size, type, stride, offset, false, .ipointer⟩] })) ∧
    (¬ claimedRulesIPointer size type stride →
      addAttributeIPointer vb name size type stride offset
        = (.error .invalidAttributeSpec, vb)) ∧
    (claimedRulesLPointer size stride →
      addAttributeLPointer vb name size stride offset
        = (.ok (), { vb with attributes := vb.attributes ++
            [⟨name, size, GL_DOUBLE, stride, offset, false, .lpointer⟩] })) ∧
    (¬ claimedRulesLPointer size stride →
      addAttributeLPointer vb name size stride offset
        = (.error .invalidAttributeSpec, vb)) := by
  refine ⟨?_, ?_, ?_, ?_, ?_, ?_⟩
  · rintro ⟨hc, ht⟩
    have hb := (baseChecksProp_iff_claimed size type stride normalized).mpr hc
    simp [addAttributePointer, mkAttributePointer_ok hb ht]
  · intro h
    have hb : ¬ (baseChecksProp size type stride normalized ∧
        pointerTypeAccepted type) := by
      rw [baseChecksProp_iff_claimed]; exact h
    simp [addAttributePointer, mkAttributePointer_err hb]
  · rintro ⟨hc, ht⟩
    have hb := (baseChecksProp_iff_claimed size type stride false).mpr hc
    simp [addAttributeIPointer, mkAttributeIPointer_ok hb ht]
  · intro h
    have hb : ¬ (baseChecksProp size type stride false ∧
        ipointerTypeAccepted type) := by
      rw [baseChecksProp_iff_claimed]; exact h
    simp [addAttributeIPointer, mkAttributeIPointer_err hb]
  · intro hc
    have hb := (baseChecksProp_iff_claimed size GL_DOUBLE stride false).mpr hc
    simp [addAttributeLPointer, mkAttributeLPointer_ok hb]
  · intro h
    have hb : ¬ baseChecksProp size GL_DOUBLE stride false := by
      rw [baseChecksProp_iff_claimed]; exact h
    simp [addAttributeLPointer, mkAttributeLPointer_err hb]

/-- Witness for C5 (amended): a concrete valid float-family registration
succeeds appending its descriptor, and a concrete violating integer-family
registration (a float type) fails appending nothing. -/
theorem addAttribute_success_iff_rules_witness :
    addAttributePointer vbOne "a" 3 GL_FLOAT false 0 0
      = (.ok (), { vbOne with attributes :=
          [⟨"a", 3, GL_FLOAT, 0, 0, false, .pointer⟩] }) ∧
    addAttributeIPointer vbOne "a" 2 GL_FLOAT 0 0
      = (.error .invalidAttributeSpec, vbOne) :=
  ⟨(addAttribute_success_iff_rules vbOne "a" 3 GL_FLOAT 0 0 false).1
      (by decide),
   (addAttribute_success_iff_rules vbOne "a" 2 GL_FLOAT 0 0 false).2.2.2.1
      (by decide)⟩

/-- Applying an attribute (enable + configure) touches neither the
attribute tables nor the current program, so name lookups are
unaffected. -/
theorem lookupAttrib_applyAttrib {α : Type} (c : GLContext α) (loc : Nat)
    (a : AttribDescriptor) (program : Nat) (n : String) :
    lookupAttrib (applyAttrib c loc a) program n
      = lookupAttrib c program n := rfl

/-- The attribute loop of `bind` fails with `AttributeNotFound` whenever
some listed descriptor's name is absent from the current program's table
(provided the program is non-zero and, as the GL guarantees, every
location the table does hold passes the internal bound assertion). -/
theorem bindAttribs_missing_name_fails {α : Type} (program : Nat)
    (hp : program ≠ 0) :
    ∀ (attrs : List AttribDescriptor) (c : GLContext α),
      (∀ n loc, lookupAttrib c program n = some loc →
        (loc : Int) < GL_MAX_VERTEX_ATTRIBS) →
      (∃ a ∈ attrs, lookupAttrib c program a.name = none) →
      (bindAttribs program c attrs).1 = .error .attributeNotFound := by
  intro attrs
  induction attrs with
  | nil => intro c _ hex; simp at hex
  | cons a rest ih =>
    intro c hloc hex
    rcases hl : lookupAttrib c program a.name with _ | loc
    · simp [bindAttribs, getAttribLocation, hp, hl]
    · have hlt := hloc a.name loc hl
      have hstep : bindAttribs program c (a :: rest)
          = bindAttribs program (applyAttrib c loc a) rest := by
        simp [bindAttribs, getAttribLocation, hp, hl, hlt]
      rw [hstep]
      apply ih
      · intro n l hsome
        exact hloc n l (by rwa [lookupAttrib_applyAttrib] at hsome)
      · obtain ⟨a0, ha0, hnone⟩ := hex
        rcases List.mem_cons.mp ha0 with h | h
        · subst h; rw [hl] at hnone; cases hnone
        · exact ⟨a0, h, by rwa [lookupAttrib_applyAttrib]⟩

/-- C6: `bind` with no current program always fails with `BindException`
(leaving the context unchanged); `bind` with a current program whose
attribute table lacks the name of some registered descriptor always fails
with `AttributeNotFound` (under the GL guarantee that the locations the
table does hold are below the assertion bound). -/
theorem bind_program_preconditions {α : Type} (c : GLContext α)
    (vb : VertexBufferImpl α) :
    (c.currentProgram = 0 →
      bindVertexBuffer c vb = (.error .bindException, c)) ∧
    (c.currentProgram ≠ 0 →
      (∀ n loc, lookupAttrib c c.currentProgram n = some loc →
        (loc : Int) < GL_MAX_VERTEX_ATTRIBS) →
      (∃ a ∈ vb.attributes, lookupAttrib c c.currentProgram a.name = none) →
      (bindVertexBuffer c vb).1 = .error .attributeNotFound) := by
  constructor
  · intro h; simp [bindVertexBuffer, h]
  · intro hp hloc hex
    have hlook : ∀ n, lookupAttrib (glBindBuffer c vb.handle)
        c.currentProgram n = lookupAttrib c c.currentProgram n :=
      fun _ => rfl
    simp only [bindVertexBuffer, hp, if_neg hp]
    apply bindAttribs_missing_name_fails c.currentProgram hp
    · intro n l h
      exact hloc n l (by rwa [hlook] at h)
    · obtain ⟨a0, h, hn⟩ := hex
      exact ⟨a0, h, by rw [hlook]; exact hn⟩

/-- Witness for C6: a concrete bind with no program fails with
`BindException`, and a concrete bind under program 7 — whose table lacks
the registered name `"nrm"` — fails with `AttributeNotFound`. -/
theorem bind_program_preconditions_witness :
    bindVertexBuffer ctxOne vbOne = (.error .bindException, ctxOne) ∧
    (bindVertexBuffer ctxProgPosOnly vbTwoAttrs).1
      = .error .attributeNotFound := by
  constructor
  · exact (bind_program_preconditions ctxOne vbOne).1 rfl
  · refine (bind_program_preconditions ctxProgPosOnly vbTwoAttrs).2
      (by decide) ?_ ?_
    · intro n loc h
      by_cases hn : n = "pos"
      · subst hn
        simp [lookupAttrib, ctxProgPosOnly, ctxOne, List.lookup] at h
        subst h
        decide
      · have hb : (n == "pos") = false := beq_eq_false_iff_ne.mpr hn
        simp [lookupAttrib, ctxProgPosOnly, ctxOne, List.lookup, hb] at h
    · refine ⟨⟨"nrm", 3, GL_FLOAT, 0, 12, false, .pointer⟩, ?_, rfl⟩
      simp [vbTwoAttrs]

end Midnight
